import Mathlib

/-!
Verification development for the Productivity_Tracker repository.

Shallow embedding of the core components:
* `TimeTracker` (src/utils/time_tracker.py) — the session timer state
  machine with start/pause/resume/stop, idle detection and elapsed-time
  computation.  Wall-clock instants (`time.time()`) are passed explicitly
  as rational numbers.
* `SessionStore` (src/services/db_service.py) — the SQLite-backed session
  table with add / mark-synced / query operations, including the
  lock-retry loop of `add_session_task`.
* `UIService.sync_to_sheets` and `UIService.stop_task`
  (src/services/ui_service.py) — the sync coordinator and the
  stop-and-persist path, including Python dictionary lookups and keyword
  argument binding, both of which are semantically significant here.

Python exceptions are modelled with `Except`/`Option`; emitted callback
events are collected in lists.
-/

namespace ProdTracker

/-- The `TimerState` enum from src/utils/time_tracker.py. -/
inductive TimerState where
  | STOPPED
  | RUNNING
  | PAUSED
  | IDLE
deriving DecidableEq, Repr

/-- The `PauseReason` enum from src/utils/time_tracker.py. -/
inductive PauseReason where
  | USER
  | IDLE
  | SYSTEM
deriving DecidableEq, Repr

/-- Events fired through the callback slots `on_state_change`,
`on_idle_detected`, `on_long_pause` of `TimeTracker`. -/
inductive TrackerEvent where
  | state_change (s : TimerState)
  | idle_detected
  | long_pause (duration : ℚ)
deriving DecidableEq, Repr

/-- The mutable fields of the `TimeTracker` class.  Timestamps are
rationals (seconds); `none` models Python `None`. -/
structure TimeTracker where
  state : TimerState
  task_name : String
  start_time : Option ℚ
  elapsed_time : ℚ
  pause_time : Option ℚ
  last_pause_reason : Option PauseReason
  idle_start_time : Option ℚ
  total_idle_time : ℚ
  idle_threshold : ℚ
  paused_duration_alert : ℚ
deriving DecidableEq, Repr

namespace TimeTracker

/-- Model of `TimeTracker.__init__(task_name, paused_duration_alert, idle_threshold)`. -/
def init (task_name : String := "") (paused_duration_alert : ℚ := 600)
    (idle_threshold : ℚ := 300) : TimeTracker :=
  { state := .STOPPED
    task_name := task_name
    start_time := none
    elapsed_time := 0
    pause_time := none
    last_pause_reason := none
    idle_start_time := none
    total_idle_time := 0
    idle_threshold := idle_threshold
    paused_duration_alert := paused_duration_alert }

/-- Model of `TimeTracker.get_elapsed_time()` in seconds: accumulated
`elapsed_time` plus, when `RUNNING` with a start time set, the open
interval since `start_time`.  (`in_hours=True` divides by 3600 at the
call sites that use it.) -/
def get_elapsed_time (t : TimeTracker) (now : ℚ) : ℚ :=
  t.elapsed_time +
    (match t.state, t.start_time with
     | .RUNNING, some s => now - s
     | _, _ => 0)

/-- Model of `TimeTracker.start(task_name)`.  Note that the `task_name` assignment
happens BEFORE the state check, so a non-empty name is recorded even when
the transition fails.  Returns the updated tracker, the boolean result,
and the events fired. -/
def start (t : TimeTracker) (now : ℚ) (task_name : String := "") :
    TimeTracker × Bool × List TrackerEvent :=
  let t := if task_name ≠ "" then { t with task_name := task_name } else t
  if t.state = .STOPPED then
    ({ t with start_time := some now, elapsed_time := 0, state := .RUNNING },
     true, [.state_change .RUNNING])
  else
    (t, false, [])

/-- Model of `TimeTracker.stop()`.  Returns the tracker, the hours value returned
by the method (total elapsed seconds / 3600, or 0 when already stopped),
and the events fired. -/
def stop (t : TimeTracker) (now : ℚ) :
    TimeTracker × ℚ × List TrackerEvent :=
  if t.state ≠ .STOPPED then
    let t1 :=
      if t.state = .RUNNING then
        { t with elapsed_time :=
            t.elapsed_time + (now - (t.start_time.getD 0)) }
      else t
    let t2 := { t1 with state := .STOPPED }
    let hours_elapsed := t2.get_elapsed_time now / 3600
    (t2, hours_elapsed, [.state_change .STOPPED])
  else
    (t, 0, [])

/-- Model of `TimeTracker.pause(reason)`. -/
def pause (t : TimeTracker) (now : ℚ) (reason : PauseReason := .USER) :
    TimeTracker × Bool × List TrackerEvent :=
  if t.state = .RUNNING then
    let pause_time := now
    let elapsed := t.elapsed_time + (pause_time - (t.start_time.getD 0))
    let t1 :=
      if reason = .IDLE then
        { t with pause_time := some pause_time, elapsed_time := elapsed,
                 state := .IDLE, idle_start_time := some pause_time,
                 last_pause_reason := some reason }
      else
        { t with pause_time := some pause_time, elapsed_time := elapsed,
                 state := .PAUSED, last_pause_reason := some reason }
    let events :=
      if reason = .IDLE then
        [TrackerEvent.state_change t1.state, TrackerEvent.idle_detected]
      else
        [TrackerEvent.state_change t1.state]
    (t1, true, events)
  else
    (t, false, [])

/-- Model of `TimeTracker.resume()`. -/
def resume (t : TimeTracker) (now : ℚ) :
    TimeTracker × Bool × List TrackerEvent :=
  if t.state = .PAUSED ∨ t.state = .IDLE then
    let t1 :=
      match t.state, t.idle_start_time with
      | .IDLE, some i =>
          { t with total_idle_time := t.total_idle_time + (now - i) }
      | _, _ => t
    let t2 := { t1 with start_time := some now, state := .RUNNING }
    (t2, true, [.state_change .RUNNING])
  else
    (t, false, [])

/-- Model of `TimeTracker.check_idle()`, with the ActivityProbe reading
(`_get_system_idle_time`) supplied as the `idle_time` argument. -/
def check_idle (t : TimeTracker) (now idle_time : ℚ) :
    TimeTracker × Bool × List TrackerEvent :=
  if t.state = .RUNNING then
    if idle_time ≥ t.idle_threshold then
      let (t1, _, events) := t.pause now .IDLE
      (t1, true, events)
    else
      (t, false, [])
  else
    (t, false, [])

end TimeTracker

/-- A user intent driving the tracker, as in the host loop. -/
inductive Op where
  | start (task_name : String)
  | pause (reason : PauseReason)
  | resume
  | stop
deriving DecidableEq, Repr

/-- Apply one timestamped operation to a tracker, discarding the result
value and events (only the state evolution matters for the elapsed-time
claim). -/
def applyOp (t : TimeTracker) (e : ℚ × Op) : TimeTracker :=
  match e.2 with
  | .start name => (t.start e.1 name).1
  | .pause r => (t.pause e.1 r).1
  | .resume => (t.resume e.1).1
  | .stop => (t.stop e.1).1

/-- Run a timestamped trace of operations from a tracker state. -/
def runOps (t : TimeTracker) (trace : List (ℚ × Op)) : TimeTracker :=
  trace.foldl applyOp t

/-- Specification-side view of a trace: the timer state, the instant the
current running interval opened, and the summed durations of the closed
`RUNNING` intervals of the current session (reset to 0 at each successful
start).  Derived from the spec's transition table only — no
`elapsed_time` bookkeeping. -/
structure SpecView where
  state : TimerState
  run_start : ℚ
  closed_sum : ℚ
deriving DecidableEq, Repr

/-- One step of the specification view: a successful `start` opens a new
session, leaving `RUNNING` closes the open interval into the sum, invalid
operations change nothing. -/
def specStep (v : SpecView) (e : ℚ × Op) : SpecView :=
  match e.2 with
  | .start _ =>
      if v.state = .STOPPED then
        { state := .RUNNING, run_start := e.1, closed_sum := 0 }
      else v
  | .pause r =>
      if v.state = .RUNNING then
        { state := if r = .IDLE then .IDLE else .PAUSED,
          run_start := v.run_start,
          closed_sum := v.closed_sum + (e.1 - v.run_start) }
      else v
  | .resume =>
      if v.state = .PAUSED ∨ v.state = .IDLE then
        { v with state := .RUNNING, run_start := e.1 }
      else v
  | .stop =>
      if v.state ≠ .STOPPED then
        { state := .STOPPED, run_start := v.run_start,
          closed_sum :=
            if v.state = .RUNNING then v.closed_sum + (e.1 - v.run_start)
            else v.closed_sum }
      else v

/-- Specification view of a whole trace, from the initial stopped view. -/
def specRun (trace : List (ℚ × Op)) : SpecView :=
  trace.foldl specStep ⟨.STOPPED, 0, 0⟩

/-- Total `RUNNING` time of the current session at instant `now`: the
closed intervals plus the open one when running. -/
def SpecView.total (v : SpecView) (now : ℚ) : ℚ :=
  v.closed_sum + (if v.state = .RUNNING then now - v.run_start else 0)

/-- The simulation invariant tying the implementation tracker to the
specification view of the trace. -/
def simInv (t : TimeTracker) (v : SpecView) : Prop :=
  t.state = v.state ∧ t.elapsed_time = v.closed_sum ∧
    (t.state = .RUNNING → t.start_time = some v.run_start)

theorem simInv_init (name : String) (pda it : ℚ) :
    simInv (TimeTracker.init name pda it) ⟨.STOPPED, 0, 0⟩ := by
  refine ⟨rfl, rfl, ?_⟩
  intro h
  simp [TimeTracker.init] at h

theorem simInv_step (t : TimeTracker) (v : SpecView) (e : ℚ × Op)
    (h : simInv t v) : simInv (applyOp t e) (specStep v e) := by
  obtain ⟨hs, he, hr⟩ := h
  obtain ⟨now, op⟩ := e
  cases op with
  | start name =>
      by_cases hname : name ≠ ""
      · by_cases hst : t.state = TimerState.STOPPED
        · simp [applyOp, specStep, TimeTracker.start, hname, hst, ← hs, simInv]
        · refine ⟨?_, ?_, ?_⟩ <;>
            simp [applyOp, specStep, TimeTracker.start, hname, hst, ← hs, he] <;>
            exact hr
      · by_cases hst : t.state = TimerState.STOPPED
        · simp [applyOp, specStep, TimeTracker.start, hname, hst, ← hs, simInv]
        · refine ⟨?_, ?_, ?_⟩ <;>
            simp [applyOp, specStep, TimeTracker.start, hname, hst, ← hs, he] <;>
            exact hr
  | pause r =>
      by_cases hst : t.state = TimerState.RUNNING
      · have hstart := hr hst
        by_cases hrr : r = PauseReason.IDLE <;>
          refine ⟨?_, ?_, ?_⟩ <;>
            simp [applyOp, specStep, TimeTracker.pause, hst, ← hs, hrr, he,
              hstart, Option.getD]
      · refine ⟨?_, ?_, ?_⟩ <;>
          simp [applyOp, specStep, TimeTracker.pause, hst, ← hs, hr, he]
  | resume =>
      by_cases hst : t.state = TimerState.PAUSED ∨ t.state = TimerState.IDLE
      · have hst' : v.state = TimerState.PAUSED ∨ v.state = TimerState.IDLE := by
          rw [← hs]; exact hst
        refine ⟨?_, ?_, ?_⟩ <;>
          cases hst with
          | inl hp =>
              simp [applyOp, specStep, TimeTracker.resume, hp, hst', ← hs, he]
          | inr hi =>
              cases hidle : t.idle_start_time <;>
                simp [applyOp, specStep, TimeTracker.resume, hi, hst', ← hs, he,
                  hidle]
      · push_neg at hst
        have hst' : ¬(v.state = TimerState.PAUSED ∨ v.state = TimerState.IDLE) := by
          rw [← hs]; simpa using hst
        refine ⟨?_, ?_, ?_⟩ <;>
          simp [applyOp, specStep, TimeTracker.resume, hst.1, hst.2, hst', ← hs,
            he] <;>
          exact hr
  | stop =>
      by_cases hst : t.state = TimerState.STOPPED
      · simp [applyOp, specStep, TimeTracker.stop, hst, ← hs, simInv, he, hr]
      · by_cases hrun : t.state = TimerState.RUNNING
        · have hstart := hr hrun
          refine ⟨?_, ?_, ?_⟩ <;>
            simp [applyOp, specStep, TimeTracker.stop, hst, hrun, ← hs, he,
              hstart, Option.getD]
        · refine ⟨?_, ?_, ?_⟩ <;>
            simp [applyOp, specStep, TimeTracker.stop, hst, hrun, ← hs, he]

theorem simInv_run (t : TimeTracker) (v : SpecView) (trace : List (ℚ × Op))
    (h : simInv t v) : simInv (runOps t trace) (trace.foldl specStep v) := by
  induction trace generalizing t v with
  | nil => exact h
  | cons e rest ih =>
      exact ih _ _ (simInv_step t v e h)

theorem simInv_run_init (name : String) (pda it : ℚ) (trace : List (ℚ × Op)) :
    simInv (runOps (TimeTracker.init name pda it) trace) (specRun trace) :=
  simInv_run _ _ trace (simInv_init name pda it)

/-- C1: after any sequence of start/pause/resume/stop operations,
`get_elapsed_time()` equals the accumulated elapsed seconds plus — only
while `RUNNING` — the open interval since the current start instant,
which is exactly the sum of the `RUNNING`-interval durations of the
current session (intervals spent `PAUSED` or `IDLE` contribute nothing),
and `stop()` returns that total divided by 3600 as hours (0 when already
stopped). -/
theorem C1_get_elapsed_time_is_running_interval_sum (name : String)
    (pda it : ℚ) (trace : List (ℚ × Op)) (now : ℚ) :
    (runOps (TimeTracker.init name pda it) trace).get_elapsed_time now
      = (specRun trace).total now
    ∧ ((runOps (TimeTracker.init name pda it) trace).stop now).2.1
      = (if (specRun trace).state ≠ TimerState.STOPPED
          then (specRun trace).total now / 3600 else 0) := by
  obtain ⟨hs, he, hr⟩ := simInv_run_init name pda it trace
  set t := runOps (TimeTracker.init name pda it) trace with ht
  set v := specRun trace with hv
  constructor
  · by_cases hrun : v.state = TimerState.RUNNING
    · have hstart := hr (hs.trans hrun)
      simp [TimeTracker.get_elapsed_time, SpecView.total, hs, hrun, hstart, he]
    · have ht' : t.state = v.state := hs
      rw [TimeTracker.get_elapsed_time, SpecView.total]
      rw [ht']
      cases hvs : v.state <;> simp_all [SpecView.total]
  · by_cases hstop : v.state = TimerState.STOPPED
    · simp [TimeTracker.stop, hs, hstop]
    · by_cases hrun : v.state = TimerState.RUNNING
      · have hstart := hr (hs.trans hrun)
        simp [TimeTracker.stop, TimeTracker.get_elapsed_time, SpecView.total,
          hs, hstop, hrun, hstart, he]
      · simp [TimeTracker.stop, TimeTracker.get_elapsed_time, SpecView.total,
          hs, hstop, hrun, he]

/-- A tracker that is currently `RUNNING` a session started at instant 0,
with the default thresholds (idle 300s, pause alert 600s). -/
def sampleRunning : TimeTracker :=
  { TimeTracker.init "a" 600 300 with
      state := .RUNNING, start_time := some 0 }

/-- C9: `check_idle` while `RUNNING` with idle duration at or above the
threshold pauses with reason `IDLE` (state becomes `IDLE`,
`last_pause_reason = IDLE`, the state-change and idle-detected events
fire, and it returns true); in any other state, or below the threshold,
it changes nothing — in particular it never transitions out of `IDLE`. -/
theorem C9_check_idle_behaviour (t : TimeTracker) (now idle : ℚ) :
    (t.state = TimerState.RUNNING → t.idle_threshold ≤ idle →
      (t.check_idle now idle).2.1 = true ∧
      (t.check_idle now idle).1.state = TimerState.IDLE ∧
      (t.check_idle now idle).1.last_pause_reason = some PauseReason.IDLE ∧
      (t.check_idle now idle).2.2
        = [TrackerEvent.state_change TimerState.IDLE,
           TrackerEvent.idle_detected])
  ∧ (t.state = TimerState.RUNNING → idle < t.idle_threshold →
      t.check_idle now idle = (t, false, []))
  ∧ (t.state ≠ TimerState.RUNNING → t.check_idle now idle = (t, false, [])) := by
  refine ⟨?_, ?_, ?_⟩
  · intro hrun hth
    simp [TimeTracker.check_idle, TimeTracker.pause, hrun, hth]
  · intro hrun hth
    simp [TimeTracker.check_idle, hrun, not_le.mpr hth]
  · intro hrun
    simp [TimeTracker.check_idle, hrun]

/-- C9 witness: Scenario B — a running tracker with threshold 300 and a
probed idle duration of 310 transitions to `IDLE`, fires the events, and
records `last_pause_reason = IDLE`. -/
theorem C9_check_idle_witness :
    (sampleRunning.check_idle 1000 310).2.1 = true ∧
    (sampleRunning.check_idle 1000 310).1.state = TimerState.IDLE ∧
    (sampleRunning.check_idle 1000 310).1.last_pause_reason
      = some PauseReason.IDLE ∧
    (sampleRunning.check_idle 1000 310).2.2
      = [TrackerEvent.state_change TimerState.IDLE,
         TrackerEvent.idle_detected] :=
  (C9_check_idle_behaviour sampleRunning 1000 310).1 rfl (by norm_num [sampleRunning, TimeTracker.init])

/-- C5 counterexample: `start("b")` invoked while the tracker is already
`RUNNING` fails (returns false) but is NOT a complete no-op — it
overwrites `task_name` from `"a"` to `"b"`, because the assignment
precedes the state check in `TimeTracker.start`. -/
theorem C5_counterexample_start_mutates_task_name :
    (sampleRunning.start 5 "b").2.1 = false ∧
    sampleRunning.task_name = "a" ∧
    (sampleRunning.start 5 "b").1.task_name = "b" := by
  refine ⟨?_, rfl, ?_⟩ <;>
    simp [sampleRunning, TimeTracker.start, TimeTracker.init]

/-- C5 amended: a TimeTracker operation invoked from an incompatible
state returns a failure value (false, or 0 for `stop`) without throwing,
fires no event, and leaves every field unchanged — EXCEPT that `start`
with a non-empty `task_name` argument still overwrites `task_name`
before the state check rejects the transition. -/
theorem C5_invalid_transition_noop (t : TimeTracker) (now : ℚ)
    (name : String) (r : PauseReason) :
    (t.state ≠ TimerState.STOPPED →
      (t.start now name).2.1 = false ∧ (t.start now name).2.2 = [] ∧
      (t.start now name).1
        = { t with task_name := if name ≠ "" then name else t.task_name })
  ∧ (t.state ≠ TimerState.RUNNING → t.pause now r = (t, false, []))
  ∧ (¬(t.state = TimerState.PAUSED ∨ t.state = TimerState.IDLE) →
      t.resume now = (t, false, []))
  ∧ (t.state = TimerState.STOPPED → t.stop now = (t, 0, [])) := by
  refine ⟨?_, ?_, ?_, ?_⟩
  · intro hst
    by_cases hname : name ≠ "" <;>
      simp [TimeTracker.start, hname, hst]
  · intro hst
    simp [TimeTracker.pause, hst]
  · intro hst
    simp [TimeTracker.resume, hst]
  · intro hst
    simp [TimeTracker.stop, hst]

/-- C5 witness: concrete incompatible-state invocations — `start` from
`RUNNING` fails with no event (only `task_name` rewritten), and `stop`
from the freshly initialized `STOPPED` tracker returns 0 changing
nothing. -/
theorem C5_invalid_transition_noop_witness :
    ((sampleRunning.start 5 "b").2.1 = false ∧
     (sampleRunning.start 5 "b").2.2 = [] ∧
     (sampleRunning.start 5 "b").1
       = { sampleRunning with
             task_name := if "b" ≠ "" then "b" else sampleRunning.task_name })
    ∧ (TimeTracker.init "x" 600 300).stop 7
        = (TimeTracker.init "x" 600 300, 0, []) :=
  ⟨(C5_invalid_transition_noop sampleRunning 5 "b" .USER).1 (by simp [sampleRunning]),
   (C5_invalid_transition_noop (TimeTracker.init "x" 600 300) 7 "b" .USER).2.2.2 rfl⟩

/-! ## SessionStore (src/services/db_service.py) -/

/-- One row of the `session_tasks` table
(`id, date, hours, task, description, tags, synced_to_sheets`). -/
structure SessionRecord where
  id : Nat
  date : String
  hours : ℚ
  task : String
  description : String
  tags : String
  synced : Bool
deriving DecidableEq, Repr

/-- The `session_tasks` table plus the AUTOINCREMENT counter. -/
structure SessionStore where
  records : List SessionRecord
  next_id : Nat
deriving DecidableEq, Repr

/-- A freshly initialized store (SQLite AUTOINCREMENT ids start at 1). -/
def SessionStore.empty : SessionStore := ⟨[], 1⟩

/-- Database exceptions: `locked` is `sqlite3.OperationalError` with
"database is locked"; `other` is any other raised exception. -/
inductive DbError where
  | locked
  | other (msg : String)
deriving DecidableEq, Repr

/-- The retry loop of `DatabaseService.add_session_task`.  `busy k` says
whether the k-th connection attempt hits a "database is locked" error.
`retries` is the current value of the Python `retries` variable; the
loop retries only while `retries > 1`, otherwise re-raises
(`.error .locked`).  Falling out of the loop (`retries = 0`) would reach
the trailing `return None`, modelled as `.ok none`. -/
def addLoop (busy : Nat → Bool) (db : SessionStore) (date : String)
    (hours : ℚ) (task description tags : String) :
    Nat → Nat → Except DbError (Option (SessionStore × Nat))
  | _, 0 => .ok none
  | attempt, retries + 1 =>
    if busy attempt then
      if retries + 1 > 1 then
        addLoop busy db date hours task description tags (attempt + 1) retries
      else
        .error .locked
    else
      .ok (some
        ({ records := db.records ++
             [⟨db.next_id, date, hours, task, description, tags, false⟩],
           next_id := db.next_id + 1 }, db.next_id))

/-- Model of `DatabaseService.add_session_task(date, hours, task, description,
tags)`: inserts with `synced_to_sheets` left at its default 0 and returns
`cursor.lastrowid`; starts with `retries = 5`. -/
def add_session_task (db : SessionStore) (busy : Nat → Bool) (date : String)
    (hours : ℚ) (task : String) (description : String := "")
    (tags : String := "") : Except DbError (Option (SessionStore × Nat)) :=
  addLoop busy db date hours task description tags 0 5

/-- The row rewrite performed by the UPDATE in
`DatabaseService.mark_as_synced`. -/
def markFn (task_id : Nat) (r : SessionRecord) : SessionRecord :=
  if r.id = task_id then { r with synced := true } else r

/-- Model of `DatabaseService.mark_as_synced(task_id)`: runs
`UPDATE session_tasks SET synced_to_sheets = 1 WHERE id = ?` and returns
`rows_affected > 0`.  SQLite's `cursor.rowcount` counts every row
matched by the WHERE clause, also when the stored value is already 1. -/
def mark_as_synced (db : SessionStore) (task_id : Nat) :
    SessionStore × Bool :=
  let rows_affected := db.records.countP (fun r => decide (r.id = task_id))
  ({ db with records := db.records.map (markFn task_id) },
   decide (0 < rows_affected))

/-- Model of `DatabaseService.get_unsynced_tasks()`: all rows with
`synced_to_sheets = 0`, in table order. -/
def get_unsynced_tasks (db : SessionStore) : List SessionRecord :=
  db.records.filter (fun r => r.synced = false)

/-- C6 counterexample: `add_session_task` performs no validation at all —
on an uncontended store, inserting with `task = ""` (and a negative
duration, here -2 hours) succeeds and stores the row, instead of being
rejected with a `ValidationError` before any store interaction. -/
theorem C6_counterexample_empty_task_inserted :
    add_session_task SessionStore.empty (fun _ => false) "2024-01-01" (-2) ""
      = .ok (some (⟨[⟨1, "2024-01-01", -2, "", "", "", false⟩], 2⟩, 1)) := rfl

/-- C6 amended: the store's add operation does not validate its input —
an empty task name (and likewise a negative duration) is inserted like
any other value: the row is stored with `synced=false` and the assigned
id is returned; no rejection happens. -/
theorem C6_no_validation (db : SessionStore) (date : String) (hours : ℚ)
    (description tags : String) :
    add_session_task db (fun _ => false) date hours "" description tags
      = .ok (some
          ({ records := db.records ++
               [⟨db.next_id, date, hours, "", description, tags, false⟩],
             next_id := db.next_id + 1 }, db.next_id)) := rfl

/-- A store whose single record (id 1) is not yet synced. -/
def oneUnsyncedStore : SessionStore :=
  ⟨[⟨1, "2024-01-01", 2, "Task A", "", "", false⟩], 2⟩

/-- C7 counterexample: after `mark_as_synced(1)` succeeds, calling it a
second time on the same id returns `true` again — not the claimed
`false` — because the UPDATE still matches the row and `rowcount` is 1. -/
theorem C7_counterexample_second_call_true :
    (mark_as_synced oneUnsyncedStore 1).2 = true ∧
    (mark_as_synced (mark_as_synced oneUnsyncedStore 1).1 1).2 = true := by
  decide

theorem markFn_idem (i : Nat) (r : SessionRecord) :
    markFn i (markFn i r) = markFn i r := by
  by_cases h : r.id = i <;> simp [markFn, h]

theorem markFn_id (i : Nat) (r : SessionRecord) : (markFn i r).id = r.id := by
  by_cases h : r.id = i <;> simp [markFn, h]

theorem map_markFn_idem (i : Nat) (l : List SessionRecord) :
    (l.map (markFn i)).map (markFn i) = l.map (markFn i) := by
  induction l with
  | nil => rfl
  | cons r rest ih => simp [ih, markFn_idem]

theorem countP_map_markFn (i j : Nat) (l : List SessionRecord) :
    (l.map (markFn j)).countP (fun r => decide (r.id = i))
      = l.countP (fun r => decide (r.id = i)) := by
  induction l with
  | nil => rfl
  | cons r rest ih =>
      by_cases h : r.id = i <;>
        simp [List.countP_cons, ih, markFn_id, h]

/-- C7 amended: calling `mark_synced` twice on the same id is safe — the
second call changes nothing (same store, same return value) — but the
second call returns `true` again for an existing id, not "no record
updated": `mark_as_synced` returns `false` only when no record with that
id exists.  The first call on an existing (unsynced or synced) id
returns `true`. -/
theorem C7_mark_as_synced_idempotent (db : SessionStore) (i : Nat) :
    (mark_as_synced (mark_as_synced db i).1 i).1 = (mark_as_synced db i).1 ∧
    (mark_as_synced (mark_as_synced db i).1 i).2 = (mark_as_synced db i).2 ∧
    ((mark_as_synced db i).2 = true ↔ ∃ r ∈ db.records, r.id = i) := by
  refine ⟨?_, ?_, ?_⟩
  · simp only [mark_as_synced]
    simp [map_markFn_idem]
    intro a _
    exact markFn_idem i a
  · simp only [mark_as_synced]
    simp [countP_map_markFn, markFn_id]
  · simp [mark_as_synced, List.countP_pos_iff]

/-- C7 witness: the idempotence properties evaluated on the concrete
one-record store. -/
theorem C7_mark_as_synced_idempotent_witness :
    (mark_as_synced (mark_as_synced oneUnsyncedStore 1).1 1).1
        = (mark_as_synced oneUnsyncedStore 1).1
    ∧ (mark_as_synced (mark_as_synced oneUnsyncedStore 1).1 1).2
        = (mark_as_synced oneUnsyncedStore 1).2
    ∧ ((mark_as_synced oneUnsyncedStore 1).2 = true ↔
        ∃ r ∈ oneUnsyncedStore.records, r.id = 1) :=
  C7_mark_as_synced_idempotent oneUnsyncedStore 1

/-- C8: the `add_session_task` retry loop.  On an uncontended store the
insert succeeds with `synced=false` and returns the assigned id; with
the lock clearing before the 5th attempt the bounded retry (5 attempts,
0.5s sleeps) still succeeds; but when the lock persists through all 5
attempts the method RAISES `sqlite3.OperationalError` ("database is
locked") instead of signaling failure by a return value — the trailing
`return None` give-up path is unreachable for every lock schedule. -/
theorem C8_add_retry_and_raise (db : SessionStore) (date : String)
    (hours : ℚ) (task description tags : String) :
    add_session_task db (fun _ => false) date hours task description tags
      = .ok (some
          ({ records := db.records ++
               [⟨db.next_id, date, hours, task, description, tags, false⟩],
             next_id := db.next_id + 1 }, db.next_id))
  ∧ add_session_task db (fun k => decide (k < 4)) date hours task
        description tags
      = .ok (some
          ({ records := db.records ++
               [⟨db.next_id, date, hours, task, description, tags, false⟩],
             next_id := db.next_id + 1 }, db.next_id))
  ∧ add_session_task db (fun _ => true) date hours task description tags
      = .error .locked
  ∧ ∀ busy : Nat → Bool,
      add_session_task db busy date hours task description tags ≠ .ok none := by
  refine ⟨rfl, rfl, rfl, ?_⟩
  intro busy
  show addLoop busy db date hours task description tags 0 5 ≠ .ok none
  have key : ∀ retries attempt, 0 < retries →
      addLoop busy db date hours task description tags attempt retries
        ≠ .ok none := by
    intro retries
    induction retries with
    | zero => intro _ h; omega
    | succ n ih =>
        intro attempt _
        by_cases hb : busy attempt
        · by_cases hn : n + 1 > 1
          · simpa [addLoop, hb, hn] using ih (attempt + 1) (by omega)
          · simp [addLoop, hb, hn]
        · simp [addLoop, hb]
  exact key 5 0 (by omega)

/-- C8 witness: on the empty store with a permanently held lock, the add
raises (is an error result in the model) and in particular never reaches
the `return None` give-up path. -/
theorem C8_add_retry_and_raise_witness :
    add_session_task SessionStore.empty (fun _ => true) "2024-01-01" 1
        "Task A" "" ""
      = .error .locked
    ∧ add_session_task SessionStore.empty (fun _ => true) "2024-01-01" 1
        "Task A" "" ""
      ≠ .ok none :=
  ⟨(C8_add_retry_and_raise SessionStore.empty "2024-01-01" 1 "Task A" ""
      "").2.2.1,
   (C8_add_retry_and_raise SessionStore.empty "2024-01-01" 1 "Task A" ""
      "").2.2.2 (fun _ => true)⟩

/-! ## Store operation sequences (for the synced-flag invariant) -/

/-- One invocation of a `DatabaseService` operation.  `createSchema` is
`_initialize_database` (CREATE TABLE IF NOT EXISTS — no row changes on an
existing store); `getUnsynced` and `getAll` are the read-only queries. -/
inductive StoreOp where
  | add (busy : Nat → Bool) (date : String) (hours : ℚ)
        (task description tags : String)
  | markSynced (id : Nat)
  | getUnsynced
  | getAll
  | createSchema

/-- The store state after one operation (failed or no-op operations leave
the store unchanged; a raised error rolls back). -/
def storeStep (db : SessionStore) : StoreOp → SessionStore
  | .add busy date hours task description tags =>
      match add_session_task db busy date hours task description tags with
      | .ok (some (db', _)) => db'
      | _ => db
  | .markSynced i => (mark_as_synced db i).1
  | .getUnsynced => db
  | .getAll => db
  | .createSchema => db

/-- The store state after a sequence of operations. -/
def runStore (db : SessionStore) (ops : List StoreOp) : SessionStore :=
  ops.foldl storeStep db

/-- Some record with this id is present and synced. -/
def isSyncedId (db : SessionStore) (i : Nat) : Prop :=
  ∃ r ∈ db.records, r.id = i ∧ r.synced = true

theorem addLoop_ok_some (busy : Nat → Bool) (db : SessionStore)
    (date : String) (hours : ℚ) (task description tags : String) :
    ∀ retries attempt db' j,
      addLoop busy db date hours task description tags attempt retries
        = .ok (some (db', j)) →
      db'.records = db.records
          ++ [⟨db.next_id, date, hours, task, description, tags, false⟩]
        ∧ j = db.next_id := by
  intro retries
  induction retries with
  | zero =>
      intro attempt db' j h
      simp [addLoop] at h
  | succ n ih =>
      intro attempt db' j h
      by_cases hb : busy attempt
      · by_cases hn : n + 1 > 1
        · rw [addLoop] at h
          simp [hb, hn] at h
          exact ih (attempt + 1) db' j h
        · rw [addLoop] at h
          simp [hb, hn] at h
      · rw [addLoop] at h
        simp [hb] at h
        obtain ⟨h1, h2⟩ := h
        constructor
        · rw [← h1]
        · omega

theorem isSyncedId_step (db : SessionStore) (op : StoreOp) (i : Nat)
    (h : isSyncedId db i) : isSyncedId (storeStep db op) i := by
  obtain ⟨r, hmem, hid, hsync⟩ := h
  cases op with
  | add busy date hours task description tags =>
      simp only [storeStep]
      split
      · next db' j heq =>
          obtain ⟨hrec, _⟩ :=
            addLoop_ok_some busy db date hours task description tags 5 0
              db' j heq
          exact ⟨r, by simp [hrec, hmem], hid, hsync⟩
      · exact ⟨r, hmem, hid, hsync⟩
  | markSynced j =>
      refine ⟨markFn j r, ?_, ?_, ?_⟩
      · simp only [storeStep, mark_as_synced]
        exact List.mem_map_of_mem _ hmem
      · rw [markFn_id, hid]
      · by_cases hj : r.id = j <;> simp [markFn, hj, hsync]
  | getUnsynced => exact ⟨r, hmem, hid, hsync⟩
  | getAll => exact ⟨r, hmem, hid, hsync⟩
  | createSchema => exact ⟨r, hmem, hid, hsync⟩

/-- C10: across every sequence of store operations the `synced` flag only
ever transitions false→true and never reverts — a record once synced
stays synced under any further add/mark/read/initialize operations — and
`add_session_task` always inserts its new record with `synced = false`. -/
theorem C10_synced_flag_monotone (db : SessionStore) (ops : List StoreOp) :
    (∀ i, isSyncedId db i → isSyncedId (runStore db ops) i)
  ∧ (∀ (busy : Nat → Bool) (date : String) (hours : ℚ)
       (task description tags : String) (db' : SessionStore) (j : Nat),
      add_session_task db busy date hours task description tags
        = .ok (some (db', j)) →
      db'.records = db.records
        ++ [⟨db.next_id, date, hours, task, description, tags, false⟩]) := by
  constructor
  · intro i h
    induction ops generalizing db with
    | nil => exact h
    | cons op rest ih =>
        exact ih (storeStep db op) (isSyncedId_step db op i h)
  · intro busy date hours task description tags db' j h
    exact (addLoop_ok_some busy db date hours task description tags 5 0
      db' j h).1

/-- C10 witness: in a store whose record 1 is synced, running a
mark-synced of another id, an add, and the reads leaves record 1 synced;
and a concrete uncontended add appends its row with `synced = false`. -/
theorem C10_synced_flag_monotone_witness :
    isSyncedId
      (runStore ⟨[⟨1, "2024-01-01", 2, "Task A", "", "", true⟩], 2⟩
        [.markSynced 5,
         .add (fun _ => false) "2024-01-02" 1 "Task B" "" "",
         .getUnsynced, .getAll, .createSchema]) 1
  ∧ (⟨[⟨1, "2024-01-01", 2, "Task A", "", "", true⟩],
        2⟩ : SessionStore).records ++
        [⟨2, "2024-01-02", 1, "Task B", "", "", false⟩]
      = [⟨1, "2024-01-01", 2, "Task A", "", "", true⟩,
         ⟨2, "2024-01-02", 1, "Task B", "", "", false⟩] := by
  constructor
  · exact (C10_synced_flag_monotone _ _).1 1
      ⟨⟨1, "2024-01-01", 2, "Task A", "", "", true⟩, by simp, rfl, rfl⟩
  · have h := (C10_synced_flag_monotone
      (⟨[⟨1, "2024-01-01", 2, "Task A", "", "", true⟩], 2⟩ : SessionStore)
      []).2 (fun _ => false) "2024-01-02" 1 "Task B" "" "" _ _ rfl
    exact h

/-! ## UIService.sync_to_sheets (src/services/ui_service.py) -/

/-- A Python value appearing in a session-task row or argument list. -/
inductive PyValue where
  | str (s : String)
  | num (q : ℚ)
  | int (n : Nat)
deriving DecidableEq, Repr

/-- The Python dict produced for one row by `get_unsynced_tasks`
(`dict(row)` over `SELECT id, date, hours, task, description, tags`);
any other key raises `KeyError` (`none`). -/
def recordDict (r : SessionRecord) : String → Option PyValue
  | "id" => some (.int r.id)
  | "date" => some (.str r.date)
  | "hours" => some (.num r.hours)
  | "task" => some (.str r.task)
  | "description" => some (.str r.description)
  | "tags" => some (.str r.tags)
  | _ => none

/-- Split a character list at every occurrence of `sep` (the single-char
case of Python's `str.split` / `String.splitOn`). -/
def splitOnChar (sep : Char) : List Char → List (List Char)
  | [] => [[]]
  | c :: rest =>
    if c = sep then [] :: splitOnChar sep rest
    else
      match splitOnChar sep rest with
      | [] => [[c]]
      | g :: gs => (c :: g) :: gs

/-- Model of `datetime.strptime(date, "%Y-%m-%d").strftime("%m/%d/%Y")`:
reformat a `YYYY-MM-DD` date as `MM/DD/YYYY`; anything not of that shape
raises `ValueError`. -/
def formatDateMDY (date : String) : Except String String :=
  match (splitOnChar '-' date.toList).map String.mk with
  | [y, m, d] => .ok (m ++ "/" ++ d ++ "/" ++ y)
  | _ => .error "ValueError: time data does not match format %Y-%m-%d"

/-- The SheetsService collaborator as seen by `sync_to_sheets`:
whether `authenticate()` succeeds, and whether the k-th `append_row`
call raises. -/
structure RemoteLedger where
  auth_ok : Bool
  append_fails : Nat → Bool

/-- Observable outcome of one `sync_to_sheets` call: the store after the
pass, the boolean return value, the rows actually appended to the sheet,
the internal `success_count`, and the caught exception, if any. -/
structure SyncResult where
  db : SessionStore
  ok : Bool
  appended : List (List PyValue)
  success_count : Nat
  error : Option String
deriving DecidableEq, Repr

/-- The per-record loop of `UIService.sync_to_sheets`.  For each task
dict, in store order: reformat `task['date']`; evaluate the debug
f-string reading `task['task_name']` (KeyError — that key does not
exist); build `row_data` from `task['Time(hrs)']`, `task['Task']`,
`task.get('Description', "")`, `task.get('category', "")`; call
`append_row`; on success `mark_as_synced(task['id'])` and increment
`success_count`.  Any exception aborts the pass (`return False`), with
marks made so far already committed. -/
def syncLoop (ledger : RemoteLedger) :
    SessionStore → List (List PyValue) → Nat → Nat → List SessionRecord →
    SyncResult
  | db, appended, count, _, [] => ⟨db, true, appended, count, none⟩
  | db, appended, count, k, task :: rest =>
    match formatDateMDY task.date with
    | .error e => ⟨db, false, appended, count, some e⟩
    | .ok formatted_date =>
      match recordDict task "task_name" with
      | none => ⟨db, false, appended, count, some "KeyError: task_name"⟩
      | some _ =>
        match recordDict task "Time(hrs)", recordDict task "Task" with
        | some hours_v, some task_v =>
          let row_data : List PyValue :=
            [.str formatted_date, hours_v, task_v,
             (recordDict task "Description").getD (.str ""),
             (recordDict task "category").getD (.str "")]
          if ledger.append_fails k then
            ⟨db, false, appended, count, some "APIError: append_row"⟩
          else
            syncLoop ledger (mark_as_synced db task.id).1
              (appended ++ [row_data]) (count + 1) (k + 1) rest
        | _, _ => ⟨db, false, appended, count, some "KeyError"⟩

/-- Model of `UIService.sync_to_sheets()`: read the unsynced tasks (empty →
trivially true), authenticate (failure → false, nothing attempted), then
run the per-record loop. -/
def sync_to_sheets (db : SessionStore) (ledger : RemoteLedger) :
    SyncResult :=
  let unsynced := get_unsynced_tasks db
  if unsynced.isEmpty then ⟨db, true, [], 0, none⟩
  else if ledger.auth_ok then syncLoop ledger db [] 0 0 unsynced
  else ⟨db, false, [], 0, none⟩

/-- C2: a sync pass over a non-empty unsynced backlog never builds a row
or marks anything: the very first record aborts the pass — either its
date fails to parse, or the debug f-string's `task['task_name']` lookup
raises `KeyError` (the dict's keys are id/date/hours/task/description/
tags) — so no `append_row` happens, no record is marked synced, and the
method returns False. -/
theorem C2_sync_pass_syncs_nothing (db : SessionStore)
    (ledger : RemoteLedger) (h : get_unsynced_tasks db ≠ []) :
    (sync_to_sheets db ledger).appended = []
  ∧ (sync_to_sheets db ledger).success_count = 0
  ∧ (sync_to_sheets db ledger).ok = false
  ∧ (sync_to_sheets db ledger).db = db := by
  rw [sync_to_sheets]
  cases hu : get_unsynced_tasks db with
  | nil => exact absurd hu h
  | cons task rest =>
      cases hl : ledger.auth_ok
      · simp [hu, hl]
      · cases hd : formatDateMDY task.date with
        | error e => simp [hu, hl, syncLoop, hd]
        | ok fd => simp [hu, hl, syncLoop, hd, recordDict]

/-- A store holding exactly one unsynced record with a well-formed date. -/
def c2_store : SessionStore :=
  ⟨[⟨1, "2024-01-01", 2, "Write spec", "drafting", "work", false⟩], 2⟩

/-- A remote ledger that authenticates and never fails an append. -/
def healthyLedger : RemoteLedger := ⟨true, fun _ => false⟩

/-- C2 witness / failing-input evaluation: with one unsynced record and a
fully healthy remote, the pass returns False having appended and marked
nothing; the caught exception is the `task_name` KeyError. -/
theorem C2_sync_pass_syncs_nothing_witness :
    ((sync_to_sheets c2_store healthyLedger).appended = []
      ∧ (sync_to_sheets c2_store healthyLedger).success_count = 0
      ∧ (sync_to_sheets c2_store healthyLedger).ok = false
      ∧ (sync_to_sheets c2_store healthyLedger).db = c2_store)
    ∧ (sync_to_sheets c2_store healthyLedger).error
        = some "KeyError: task_name" :=
  ⟨C2_sync_pass_syncs_nothing c2_store healthyLedger (by decide), by decide⟩

/-- The Scenario C store: three unsynced records. -/
def c4_store : SessionStore :=
  ⟨[⟨1, "2024-01-01", 1, "A", "", "", false⟩,
    ⟨2, "2024-01-02", 2, "B", "", "", false⟩,
    ⟨3, "2024-01-03", 3, "C", "", "", false⟩], 4⟩

/-- A ledger whose second `append_row` call (index 1) would fail. -/
def failSecondLedger : RemoteLedger := ⟨true, fun k => decide (k = 1)⟩

/-- C4 failing-input evaluation: with 3 unsynced records and the remote
set to fail the 2nd append, the pass never reaches any `append_row` — it
dies on record 1's `task_name` KeyError — so it reports no partial
success (no count of synced records, no failing record id), appends and
marks nothing, and just returns False with the caught exception. -/
theorem C4_no_partial_success_report :
    sync_to_sheets c4_store failSecondLedger
      = ⟨c4_store, false, [], 0, some "KeyError: task_name"⟩ := by
  decide

/-! ## UIService.stop_task (src/services/ui_service.py) -/

/-- The parameter names of `DatabaseService.add_session_task` after
`self`: `(date, hours, task, description="", tags="")`. -/
def addSessionTaskParams : List String :=
  ["date", "hours", "task", "description", "tags"]

/-- Python keyword-argument binding for `add_session_task`: a keyword
that is not a parameter name raises `TypeError`; otherwise the bound
values are used for the insert (`description`/`tags` default to "",
missing `date`/`hours`/`task` would also raise `TypeError`). -/
def callAddSessionTaskKwargs (db : SessionStore) (busy : Nat → Bool)
    (kwargs : List (String × PyValue)) :
    Except String (Except DbError (Option (SessionStore × Nat))) :=
  if kwargs.all (fun kv => addSessionTaskParams.contains kv.1) then
    match kwargs.lookup "date", kwargs.lookup "hours",
        kwargs.lookup "task" with
    | some (.str date), some (.num hours), some (.str task) =>
        let description :=
          match kwargs.lookup "description" with
          | some (.str d) => d
          | _ => ""
        let tags :=
          match kwargs.lookup "tags" with
          | some (.str s) => s
          | _ => ""
        .ok (add_session_task db busy date hours task description tags)
    | _, _, _ => .error "TypeError: missing required argument"
  else
    .error "TypeError: unexpected keyword argument"

/-- The keyword arguments that `UIService.stop_task` passes to
`add_session_task`: `date=`, `time_elapsed=`, `task_name=`,
`description=`, `category=`. -/
def stopTaskKwargs (today : String) (hours_elapsed : ℚ)
    (task_name description category : String) : List (String × PyValue) :=
  [("date", .str today), ("time_elapsed", .num hours_elapsed),
   ("task_name", .str task_name), ("description", .str description),
   ("category", .str category)]

/-- Observable outcome of `UIService.stop_task`. -/
structure StopTaskResult where
  tracker : TimeTracker
  db : SessionStore
  ok : Bool
deriving DecidableEq, Repr

/-- Model of `UIService.stop_task()`: stop the timer; if the returned hours are
positive, try to save through `add_session_task` (the call is made with
the keyword names above); any exception is caught and the method returns
False; on a successful call it returns the truthiness of the returned
task id. -/
def stop_task (t : TimeTracker) (db : SessionStore) (busy : Nat → Bool)
    (now : ℚ) (today description category : String) : StopTaskResult :=
  let task_name := if t.state = TimerState.STOPPED then "" else t.task_name
  let r := t.stop now
  let t' := r.1
  let hours_elapsed := r.2.1
  if 0 < hours_elapsed then
    match callAddSessionTaskKwargs db busy
        (stopTaskKwargs today hours_elapsed task_name description
          category) with
    | .error _ => ⟨t', db, false⟩
    | .ok (.error _) => ⟨t', db, false⟩
    | .ok (.ok none) => ⟨t', db, false⟩
    | .ok (.ok (some (db', task_id))) => ⟨t', db', decide (task_id ≠ 0)⟩
  else
    ⟨t', db, false⟩

/-- C3: whenever `stop_task` stops a timer with positive elapsed hours,
the internal `add_session_task` call uses keyword arguments
(`time_elapsed`, `task_name`, `category`) that are not among
`add_session_task`'s parameters (`date, hours, task, description,
tags`), so it raises `TypeError`; the exception is caught, nothing is
inserted into the store, and `stop_task` returns False. -/
theorem C3_stop_task_never_persists (t : TimeTracker) (db : SessionStore)
    (busy : Nat → Bool) (now : ℚ) (today description category : String)
    (h : 0 < (t.stop now).2.1) :
    callAddSessionTaskKwargs db busy
        (stopTaskKwargs today (t.stop now).2.1
          (if t.state = TimerState.STOPPED then "" else t.task_name)
          description category)
      = .error "TypeError: unexpected keyword argument"
  ∧ stop_task t db busy now today description category
      = ⟨(t.stop now).1, db, false⟩ := by
  constructor
  · rfl
  · rw [stop_task]
    simp only [h, if_true]
    rfl

/-- C3 witness: stopping a session that ran for one hour (started at 0,
stopped at 3600) leaves the store untouched and returns False, the
internal call having raised `TypeError`. -/
theorem C3_stop_task_never_persists_witness :
    callAddSessionTaskKwargs SessionStore.empty (fun _ => false)
        (stopTaskKwargs "2024-01-01" (sampleRunning.stop 3600).2.1
          (if sampleRunning.state = TimerState.STOPPED then ""
           else sampleRunning.task_name) "" "")
      = .error "TypeError: unexpected keyword argument"
  ∧ stop_task sampleRunning SessionStore.empty (fun _ => false) 3600
        "2024-01-01" "" ""
      = ⟨(sampleRunning.stop 3600).1, SessionStore.empty, false⟩ :=
  C3_stop_task_never_persists sampleRunning SessionStore.empty
    (fun _ => false) 3600 "2024-01-01" "" ""
    (by simp [sampleRunning, TimeTracker.stop, TimeTracker.init,
      TimeTracker.get_elapsed_time])

end ProdTracker
